import Mathlib

/-!
Shallow embedding of the workspace service core of the `iac-workshop`
repository: the SQLite-backed registry (`database.js`), the Express route
handlers of the workspaces server (`app/server.js`), and the shared OAuth
route handlers (`auth-common.js`).  Rows of the `workspaces` table become a
list of `Workspace` records; each SQL `UPDATE ... WHERE ...` becomes a
conditional map over that list returning the affected-row count, exactly as
`better-sqlite3`'s `run` reports `changes`.
-/

namespace WsApp

/-- A row of the `workspaces` table (see the `CREATE TABLE` in
`database.js`): integer primary key, nullable `user_id`, `name`,
`repo_url`, nullable `container_id`, and a `status` string. -/
structure Workspace where
  id : Nat
  userId : Option String
  name : String
  repoUrl : String
  containerId : Option String
  status : String
deriving DecidableEq

/-- The workspaces table: a list of rows. -/
abbrev DB := List Workspace

/-- `UPDATE workspaces SET ... WHERE p`: apply `f` to every row matching
`p` and report the number of affected rows (`changes`). -/
def updateWhere (db : DB) (p : Workspace → Bool) (f : Workspace → Workspace) :
    DB × Nat :=
  (db.map (fun w => if p w then f w else w), (db.filter p).length)

/-- `AUTOINCREMENT` surrogate key for a fresh row. -/
def nextId (db : DB) : Nat :=
  db.foldl (fun m w => max m w.id) 0 + 1

/-- `createWorkspace` in `database.js`: a plain `INSERT`; the schema-level
`UNIQUE(name)` constraint makes the insert throw when the name is taken
(`none` here), never overwriting the existing row. -/
def createWorkspace (db : DB) (userId : Option String) (name repoUrl : String)
    (containerId : Option String) (status : String) : Option (DB × Nat) :=
  if db.any (fun w => w.name == name) then none
  else some (db ++ [⟨nextId db, userId, name, repoUrl, containerId, status⟩], nextId db)

/-- `getWorkspace` in `database.js`: `SELECT * FROM workspaces WHERE id = ?`. -/
def getWorkspace (db : DB) (id : Nat) : Option Workspace :=
  db.find? (fun w => w.id == id)

/-- `getUserWorkspaces` in `database.js`: rows owned by the user or
released (`user_id IS NULL`). -/
def getUserWorkspaces (db : DB) (userId : String) : List Workspace :=
  db.filter (fun w => w.userId == some userId || w.userId.isNone)

/-- `updateWorkspaceStatus` in `database.js`: with an `expectedStatus` the
`UPDATE` is guarded by `AND status = ?` (compare-and-swap); without one it
is an unconditional status write. -/
def updateWorkspaceStatus (db : DB) (id : Nat) (status : String)
    (expectedStatus : Option String) : DB × Nat :=
  match expectedStatus with
  | some exp =>
      updateWhere db (fun w => w.id == id && w.status == exp)
        (fun w => { w with status := status })
  | none =>
      updateWhere db (fun w => w.id == id)
        (fun w => { w with status := status })

/-- `updateWorkspaceContainer` in `database.js`: as above, additionally
setting `container_id`. -/
def updateWorkspaceContainer (db : DB) (id : Nat) (containerId : Option String)
    (status : String) (expectedStatus : Option String) : DB × Nat :=
  match expectedStatus with
  | some exp =>
      updateWhere db (fun w => w.id == id && w.status == exp)
        (fun w => { w with containerId := containerId, status := status })
  | none =>
      updateWhere db (fun w => w.id == id)
        (fun w => { w with containerId := containerId, status := status })

/-- `acquireWorkspace` in `database.js`:
`UPDATE ... SET user_id = ? WHERE id = ? AND user_id IS NULL AND status = ?`. -/
def acquireWorkspace (db : DB) (id : Nat) (userId : String)
    (expectedStatus : String) : DB × Nat :=
  updateWhere db
    (fun w => w.id == id && w.userId.isNone && w.status == expectedStatus)
    (fun w => { w with userId := some userId })

/-- `releaseWorkspace` in `database.js`:
`UPDATE ... SET user_id = NULL WHERE id = ? AND user_id = ? AND status = ?`. -/
def releaseWorkspace (db : DB) (id : Nat) (expectedUserId : String)
    (expectedStatus : String) : DB × Nat :=
  updateWhere db
    (fun w => w.id == id && w.userId == some expectedUserId && w.status == expectedStatus)
    (fun w => { w with userId := none })

/-- Outcome of an awaited Container Runtime call
(`workspaceManager.startWorkspace` / `stopWorkspace`): it either resolves
or throws. -/
inductive RtOutcome
  | ok
  | fail
deriving DecidableEq

/-- What a route handler leaves behind: the table, the HTTP status of the
response, and whether the Container Runtime was invoked. -/
structure HandlerResult where
  db : DB
  httpStatus : Nat
  runtimeCalled : Bool
deriving DecidableEq

/-- `POST /api/workspaces/:id/start` in `app/server.js`: fetch the row,
404 unless it exists and `user_id` equals the caller, then await the
Runtime; on success write status `running` with no expected-status guard,
on a thrown Runtime error answer 500 without touching the table. -/
def startWorkspaceHandler (db : DB) (userId : String) (id : Nat)
    (rt : RtOutcome) : HandlerResult :=
  match getWorkspace db id with
  | none => ⟨db, 404, false⟩
  | some w =>
      if w.userId = some userId then
        match rt with
        | .fail => ⟨db, 500, true⟩
        | .ok => ⟨(updateWorkspaceStatus db id "running" none).1, 200, true⟩
      else ⟨db, 404, false⟩

/-- `POST /api/workspaces/:id/stop` in `app/server.js`: symmetric to
start, writing status `stopped`; `container_id` is never cleared. -/
def stopWorkspaceHandler (db : DB) (userId : String) (id : Nat)
    (rt : RtOutcome) : HandlerResult :=
  match getWorkspace db id with
  | none => ⟨db, 404, false⟩
  | some w =>
      if w.userId = some userId then
        match rt with
        | .fail => ⟨db, 500, true⟩
        | .ok => ⟨(updateWorkspaceStatus db id "stopped" none).1, 200, true⟩
      else ⟨db, 404, false⟩

/-- The name filter `/^[a-zA-Z0-9_-]+$/` used by `POST /api/workspaces`. -/
def validName (name : String) : Bool :=
  name ≠ "" && name.data.all (fun c => c.isAlphanum || c == '_' || c == '-')

/-- Outcome of `workspaceManager.createWorkspace`: a provisioned container
handle, or a thrown error. -/
inductive RtCreate
  | ok (containerId : String)
  | fail
deriving DecidableEq

/-- `POST /api/workspaces` in `app/server.js`: 400 on missing or malformed
fields, then provision a container via the Runtime, then
`db.createWorkspace` with `status: 'running'` and the fresh container id;
a thrown error (Runtime failure or the `UNIQUE(name)` violation) is caught
and answered with 500. -/
def createWorkspaceHandler (db : DB) (userId name repoUrl : String)
    (rt : RtCreate) : HandlerResult :=
  if name == "" || repoUrl == "" then ⟨db, 400, false⟩
  else if !validName name then ⟨db, 400, false⟩
  else
    match rt with
    | .fail => ⟨db, 500, true⟩
    | .ok cid =>
        match createWorkspace db (some userId) name repoUrl (some cid) "running" with
        | none => ⟨db, 500, true⟩
        | some (db1, _) => ⟨db1, 200, true⟩

/-- `GET /api/workspaces/:id` in `app/server.js`: 404 unless the row
exists and `workspace.user_id === req.user.id`. -/
def getWorkspaceHandler (db : DB) (userId : String) (id : Nat) : Nat :=
  match getWorkspace db id with
  | none => 404
  | some w => if w.userId = some userId then 200 else 404

/-- One lifecycle request against the workspaces server: a start or a stop,
tagged with how the awaited Runtime call turns out. -/
inductive LifecycleOp
  | start (rt : RtOutcome)
  | stop (rt : RtOutcome)
deriving DecidableEq

/-- Table left behind by one lifecycle request from user `userId` against
workspace `id`. -/
def applyOp (db : DB) (userId : String) (id : Nat) : LifecycleOp → DB
  | .start rt => (startWorkspaceHandler db userId id rt).db
  | .stop rt => (stopWorkspaceHandler db userId id rt).db

/-- Run a sequence of lifecycle requests, each naming its caller and its
target workspace. -/
def runLifecycle (db : DB) (ops : List (String × Nat × LifecycleOp)) : DB :=
  ops.foldl (fun d u => applyOp d u.1 u.2.1 u.2.2) db

/-- Everything of a row except its status; start/stop requests are meant
to touch only the status column. -/
def rowKey (w : Workspace) : Nat × Option String × String × String × Option String :=
  (w.id, w.userId, w.name, w.repoUrl, w.containerId)

/-- A sequence of `acquireWorkspace` calls for the same workspace (the
serialization of a race), expecting status `stopped` as the public
acquisition path does; returns the final table and the total number of
calls that reported success. -/
def acquireRace (db : DB) (id : Nat) (users : List String) : DB × Nat :=
  users.foldl
    (fun acc u =>
      ((acquireWorkspace acc.1 id u "stopped").1,
       acc.2 + (acquireWorkspace acc.1 id u "stopped").2))
    (db, 0)

/-- Every row carrying this id is already owned: the state of the table
after a successful acquisition, in which any further `acquireWorkspace`
matches no row (`user_id IS NULL` fails). -/
def ownedAt (db : DB) (id : Nat) : Prop :=
  ∀ w ∈ db, w.id = id → w.userId ≠ none

/-- The per-request session state used by the OAuth handlers: the pending
CSRF nonce (`req.session.oauthState`) and the saved `returnTo` target. -/
structure Session where
  oauthState : Option String
  returnTo : Option String
deriving DecidableEq

/-- Observable steps an OAuth-initiation handler takes, in order: writing
the nonce into the session, persisting the session (`req.session.save`
succeeding), answering 500, redirecting to the identity provider. -/
inductive AuthEvent
  | setNonce (state : String)
  | persistSession (sess : Session)
  | respond500
  | redirectToProvider (state : String)
deriving DecidableEq

/-- Whether an event is a successful session persist. -/
def AuthEvent.isPersist : AuthEvent → Bool
  | .persistSession _ => true
  | _ => false

/-- Whether an event is the redirect to the identity provider. -/
def AuthEvent.isRedirect : AuthEvent → Bool
  | .redirectToProvider _ => true
  | _ => false

/-- Whether an event is the hard 500 answer. -/
def AuthEvent.isServerError : AuthEvent → Bool
  | .respond500 => true
  | _ => false

/-- `initiateAuth` in `auth-common.js`: store a fresh nonce (and the
`returnTo` query target when present) in the session, call
`req.session.save`, and only in its callback — after a successful persist —
redirect to the provider; a save error is answered with 500 and no
redirect.  `saveOk` is the outcome of the session-store write. -/
def initiateAuth (sess : Session) (returnToQuery : Option String)
    (state : String) (saveOk : Bool) : Session × List AuthEvent :=
  let sess1 : Session :=
    match returnToQuery with
    | some r => { oauthState := some state, returnTo := some r }
    | none => { sess with oauthState := some state }
  if saveOk then
    (sess1, [AuthEvent.setNonce state, AuthEvent.persistSession sess1,
             AuthEvent.redirectToProvider state])
  else
    (sess1, [AuthEvent.setNonce state, AuthEvent.respond500])

/-- `GET /auth/github` in `app/server.js`: store the nonce in the session
and immediately call `passport.authenticate`, which issues the redirect;
there is no `req.session.save` call before it and no error branch, so the
handler emits no persist step and can never answer 500. -/
def serverInitiateAuth (sess : Session) (state : String) :
    Session × List AuthEvent :=
  ({ sess with oauthState := some state },
   [AuthEvent.setNonce state, AuthEvent.redirectToProvider state])

/-- Outcome of the state-verification middleware in front of
`passport.authenticate`: a 403 rejection carrying the session it leaves
behind (`none` when there was no session at all), or handing the request
on to provider authentication (`next()`), which alone can establish an
authenticated session. -/
inductive CallbackResult
  | reject403 (sess : Option Session)
  | proceedToAuth (sess : Session)
deriving DecidableEq

/-- The state-verification step of `handleCallback` in `auth-common.js`:
403 when the session or its stored nonce is missing, 403 when
`req.query.state` differs from the stored nonce, and only otherwise
`delete req.session.oauthState` followed by `next()`. -/
def handleCallbackVerify (queryState : Option String) (sess : Option Session) :
    CallbackResult :=
  match sess with
  | none => .reject403 none
  | some s =>
      if s.oauthState = none then .reject403 (some s)
      else if queryState = s.oauthState then
        .proceedToAuth { s with oauthState := none }
      else .reject403 (some s)

/-- The state-verification step of `GET /auth/github/callback` in
`app/server.js`: only the strict comparison
`req.query.state !== req.session.oauthState` guards the 403; on equality
the nonce is deleted and the request proceeds.  There is no session-lost
check. -/
def serverCallbackVerify (queryState : Option String) (sess : Session) :
    CallbackResult :=
  if queryState = sess.oauthState then
    .proceedToAuth { sess with oauthState := none }
  else .reject403 (some sess)

/-! Helper lemmas about the conditional-update primitive. -/

theorem updateWhere_snd_ne_zero (db : DB) (p : Workspace → Bool)
    (f : Workspace → Workspace) :
    (updateWhere db p f).2 ≠ 0 ↔ ∃ w ∈ db, p w = true := by
  simp [updateWhere, List.length_eq_zero, List.filter_eq_nil_iff]

theorem updateWhere_fst_of_none (db : DB) (p : Workspace → Bool)
    (f : Workspace → Workspace) (h : ∀ w ∈ db, p w = false) :
    (updateWhere db p f).1 = db := by
  simp only [updateWhere]
  calc db.map (fun w => if p w then f w else w) = db.map id := by
        apply List.map_congr_left
        intro w hw
        simp [h w hw]
    _ = db := List.map_id db

theorem updateWhere_snd_zero (db : DB) (p : Workspace → Bool)
    (f : Workspace → Workspace) (h : ∀ w ∈ db, p w = false) :
    (updateWhere db p f).2 = 0 := by
  simp only [updateWhere]
  rw [List.length_eq_zero, List.filter_eq_nil_iff]
  intro w hw
  simp [h w hw]

theorem mem_updateWhere_fst {w' : Workspace} (db : DB) (p : Workspace → Bool)
    (f : Workspace → Workspace) :
    w' ∈ (updateWhere db p f).1 ↔ ∃ w ∈ db, w' = if p w then f w else w := by
  simp only [updateWhere, List.mem_map]
  constructor
  · rintro ⟨w, hw, rfl⟩
    exact ⟨w, hw, rfl⟩
  · rintro ⟨w, hw, rfl⟩
    exact ⟨w, hw, rfl⟩

theorem filter_eq_singleton {p : Workspace → Bool} {w0 : Workspace} :
    ∀ {db : DB}, w0 ∈ db → p w0 = true → (∀ w ∈ db, p w = true → w = w0) →
      db.Nodup → db.filter p = [w0]
  | [], h0, _, _, _ => absurd h0 (List.not_mem_nil w0)
  | w :: t, h0, hp, huniq, hnd => by
    rcases List.nodup_cons.mp hnd with ⟨hwt, hndt⟩
    by_cases hpw : p w = true
    · have hww0 : w = w0 := huniq w (List.mem_cons_self w t) hpw
      subst hww0
      rw [List.filter_cons_of_pos hpw]
      have : t.filter p = [] := by
        rw [List.filter_eq_nil_iff]
        intro x hx hpx
        exact hwt ((huniq x (List.mem_cons_of_mem w hx) hpx) ▸ hx)
      rw [this]
    · rw [List.filter_cons_of_neg (by simp [hpw])]
      have h0t : w0 ∈ t := by
        rcases List.mem_cons.mp h0 with h | h
        · exact absurd (h ▸ hp) hpw
        · exact h
      exact filter_eq_singleton h0t hp
        (fun x hx => huniq x (List.mem_cons_of_mem w hx)) hndt

/-! Lemmas about acquisition races. -/

theorem acquireWorkspace_noop {db : DB} {id : Nat} {u es : String}
    (h : ownedAt db id) : acquireWorkspace db id u es = (db, 0) := by
  have hall : ∀ w ∈ db,
      (w.id == id && w.userId.isNone && w.status == es) = false := by
    intro w hw
    by_cases hid : w.id = id
    · have hu := h w hw hid
      have : w.userId.isNone = false := by
        rcases hw' : w.userId with _ | v
        · exact absurd hw' hu
        · rfl
      simp [this]
    · simp [hid]
  have h1 := updateWhere_fst_of_none db _ (fun w => { w with userId := some u }) hall
  have h2 := updateWhere_snd_zero db _ (fun w => { w with userId := some u }) hall
  exact Prod.ext h1 h2

theorem acquireRace_of_owned {id : Nat} (users : List String) :
    ∀ (d : DB) (n : Nat), ownedAt d id →
      users.foldl
        (fun acc u =>
          ((acquireWorkspace acc.1 id u "stopped").1,
           acc.2 + (acquireWorkspace acc.1 id u "stopped").2))
        (d, n) = (d, n) := by
  induction users with
  | nil => intro d n _; rfl
  | cons u rest ih =>
      intro d n h
      rw [List.foldl_cons]
      rw [acquireWorkspace_noop h]
      exact ih d n h

theorem acquireWorkspace_first {db : DB} {id : Nat} {u : String} {w0 : Workspace}
    (h0 : w0 ∈ db) (hid : w0.id = id) (hrel : w0.userId = none)
    (hst : w0.status = "stopped") (hnd : (db.map Workspace.id).Nodup) :
    (acquireWorkspace db id u "stopped").2 = 1 ∧
      ownedAt (acquireWorkspace db id u "stopped").1 id := by
  have hinj : ∀ w ∈ db, w.id = id → w = w0 := by
    intro w hw hwid
    exact List.inj_on_of_nodup_map hnd hw h0 (by rw [hwid, hid])
  have hp0 : (w0.id == id && w0.userId.isNone && w0.status == "stopped") = true := by
    simp [hid, hrel, hst]
  constructor
  · show (db.filter _).length = 1
    rw [filter_eq_singleton h0 hp0 ?huniq (List.Nodup.of_map _ hnd)]
    · rfl
    case huniq =>
      intro w hw hpw
      have : w.id = id := by
        have h' := ((Bool.and_eq_true _ _).mp ((Bool.and_eq_true _ _).mp hpw).1).1
        simpa using h'
      exact hinj w hw this
  · intro w' hw' hwid'
    rcases (mem_updateWhere_fst _ _ _).mp hw' with ⟨w, hw, rfl⟩
    by_cases hpw : (w.id == id && w.userId.isNone && w.status == "stopped") = true
    · rw [if_pos hpw]
      simp
    · rw [if_neg hpw] at hwid' ⊢
      intro hnone
      have hwid : w.id = id := hwid'
      have : w = w0 := hinj w hw hwid
      subst this
      exact hpw hp0

/-! Lemmas about what the lifecycle handlers do to the table. -/

theorem updateWhere_map_rowKey (db : DB) (p : Workspace → Bool)
    (f : Workspace → Workspace) (hf : ∀ w, rowKey (f w) = rowKey w) :
    ((updateWhere db p f).1).map rowKey = db.map rowKey := by
  simp only [updateWhere, List.map_map]
  apply List.map_congr_left
  intro w _
  by_cases hp : p w = true
  · simp only [Function.comp, if_pos hp, hf]
  · simp only [Function.comp, if_neg hp]

theorem updateWhere_mem_status {w' : Workspace} {s : String} (db : DB)
    (p : Workspace → Bool) (f : Workspace → Workspace)
    (hf : ∀ w, (f w).status = s) (h : w' ∈ (updateWhere db p f).1) :
    w'.status = s ∨ w' ∈ db := by
  rcases (mem_updateWhere_fst _ _ _).mp h with ⟨w, hw, rfl⟩
  by_cases hp : p w = true
  · rw [if_pos hp]; left; exact hf w
  · rw [if_neg hp]; right; exact hw

theorem updateWorkspaceStatus_rowKey (db : DB) (id : Nat) (s : String)
    (e : Option String) :
    ((updateWorkspaceStatus db id s e).1).map rowKey = db.map rowKey := by
  cases e <;> exact updateWhere_map_rowKey db _ _ (fun w => rfl)

theorem mem_updateWorkspaceStatus {w' : Workspace} (db : DB) (id : Nat)
    (s : String) (e : Option String)
    (h : w' ∈ (updateWorkspaceStatus db id s e).1) : w'.status = s ∨ w' ∈ db := by
  cases e <;> exact updateWhere_mem_status db _ _ (fun w => rfl) h

theorem startWorkspaceHandler_rowKey (db : DB) (u : String) (id : Nat)
    (rt : RtOutcome) :
    ((startWorkspaceHandler db u id rt).db).map rowKey = db.map rowKey := by
  rcases hg : getWorkspace db id with _ | w
  · simp [startWorkspaceHandler, hg]
  · simp only [startWorkspaceHandler, hg]
    by_cases h : w.userId = some u
    · rw [if_pos h]
      cases rt
      · exact updateWorkspaceStatus_rowKey db id "running" none
      · rfl
    · rw [if_neg h]

theorem stopWorkspaceHandler_rowKey (db : DB) (u : String) (id : Nat)
    (rt : RtOutcome) :
    ((stopWorkspaceHandler db u id rt).db).map rowKey = db.map rowKey := by
  rcases hg : getWorkspace db id with _ | w
  · simp [stopWorkspaceHandler, hg]
  · simp only [stopWorkspaceHandler, hg]
    by_cases h : w.userId = some u
    · rw [if_pos h]
      cases rt
      · exact updateWorkspaceStatus_rowKey db id "stopped" none
      · rfl
    · rw [if_neg h]

theorem mem_startWorkspaceHandler {w' : Workspace} (db : DB) (u : String)
    (id : Nat) (rt : RtOutcome)
    (h : w' ∈ (startWorkspaceHandler db u id rt).db) :
    w'.status = "running" ∨ w' ∈ db := by
  rcases hg : getWorkspace db id with _ | w
  · right; simpa [startWorkspaceHandler, hg] using h
  · simp only [startWorkspaceHandler, hg] at h
    by_cases ho : w.userId = some u
    · rw [if_pos ho] at h
      cases rt
      · exact mem_updateWorkspaceStatus db id "running" none h
      · right; exact h
    · rw [if_neg ho] at h; right; exact h

theorem mem_stopWorkspaceHandler {w' : Workspace} (db : DB) (u : String)
    (id : Nat) (rt : RtOutcome)
    (h : w' ∈ (stopWorkspaceHandler db u id rt).db) :
    w'.status = "stopped" ∨ w' ∈ db := by
  rcases hg : getWorkspace db id with _ | w
  · right; simpa [stopWorkspaceHandler, hg] using h
  · simp only [stopWorkspaceHandler, hg] at h
    by_cases ho : w.userId = some u
    · rw [if_pos ho] at h
      cases rt
      · exact mem_updateWorkspaceStatus db id "stopped" none h
      · right; exact h
    · rw [if_neg ho] at h; right; exact h

theorem applyOp_rowKey (db : DB) (u : String) (id : Nat) (op : LifecycleOp) :
    (applyOp db u id op).map rowKey = db.map rowKey := by
  cases op
  · exact startWorkspaceHandler_rowKey db u id _
  · exact stopWorkspaceHandler_rowKey db u id _

theorem mem_applyOp {w' : Workspace} (db : DB) (u : String) (id : Nat)
    (op : LifecycleOp) (h : w' ∈ applyOp db u id op) :
    w'.status = "running" ∨ w'.status = "stopped" ∨ w' ∈ db := by
  cases op
  · rcases mem_startWorkspaceHandler db u id _ h with h' | h'
    · exact Or.inl h'
    · exact Or.inr (Or.inr h')
  · rcases mem_stopWorkspaceHandler db u id _ h with h' | h'
    · exact Or.inr (Or.inl h')
    · exact Or.inr (Or.inr h')

theorem runLifecycle_rowKey :
    ∀ (ops : List (String × Nat × LifecycleOp)) (db : DB),
      (runLifecycle db ops).map rowKey = db.map rowKey := by
  intro ops
  induction ops with
  | nil => intro db; rfl
  | cons o rest ih =>
      intro db
      show (runLifecycle (applyOp db o.1 o.2.1 o.2.2) rest).map rowKey = db.map rowKey
      rw [ih, applyOp_rowKey]

theorem runLifecycle_status :
    ∀ (ops : List (String × Nat × LifecycleOp)) (db : DB),
      (∀ w ∈ db, w.status = "running" ∨ w.status = "stopped") →
      ∀ w' ∈ runLifecycle db ops, w'.status = "running" ∨ w'.status = "stopped" := by
  intro ops
  induction ops with
  | nil => intro db h w' hw'; exact h w' hw'
  | cons o rest ih =>
      intro db h w' hw'
      refine ih (applyOp db o.1 o.2.1 o.2.2) ?_ w' hw'
      intro x hx
      rcases mem_applyOp db o.1 o.2.1 o.2.2 hx with h' | h' | h'
      · exact Or.inl h'
      · exact Or.inr h'
      · exact h x h'

/-- Claim C1, amended: the start and stop handlers perform no conditional
stable-to-transitional status update and never report Conflict — whenever
the workspace exists and is owned by the caller, the Container Runtime is
invoked regardless of the workspace's current status, and no caller ever
receives 409. -/
theorem C1_amended (db : DB) (u : String) (id : Nat) (rt : RtOutcome) :
    (startWorkspaceHandler db u id rt).httpStatus ≠ 409 ∧
    (stopWorkspaceHandler db u id rt).httpStatus ≠ 409 ∧
    (∀ w, getWorkspace db id = some w → w.userId = some u →
      (startWorkspaceHandler db u id rt).runtimeCalled = true ∧
      (stopWorkspaceHandler db u id rt).runtimeCalled = true) := by
  refine ⟨?_, ?_, ?_⟩
  · rcases hg : getWorkspace db id with _ | w
    · simp [startWorkspaceHandler, hg]
    · simp only [startWorkspaceHandler, hg]
      by_cases h : w.userId = some u
      · rw [if_pos h]; cases rt <;> simp
      · rw [if_neg h]; simp
  · rcases hg : getWorkspace db id with _ | w
    · simp [stopWorkspaceHandler, hg]
    · simp only [stopWorkspaceHandler, hg]
      by_cases h : w.userId = some u
      · rw [if_pos h]; cases rt <;> simp
      · rw [if_neg h]; simp
  · intro w hg hw
    constructor
    · simp only [startWorkspaceHandler, hg, if_pos hw]
      cases rt <;> rfl
    · simp only [stopWorkspaceHandler, hg, if_pos hw]
      cases rt <;> rfl

/-- Witness for C1: even on a workspace already in the transitional status
`starting`, a start request invokes the Runtime. -/
theorem C1_amended_witness :
    (startWorkspaceHandler [⟨5, some "u1", "ws5", "https://git/x", none, "starting"⟩]
      "u1" 5 .ok).runtimeCalled = true :=
  (((C1_amended [⟨5, some "u1", "ws5", "https://git/x", none, "starting"⟩]
      "u1" 5 .ok).2.2) ⟨5, some "u1", "ws5", "https://git/x", none, "starting"⟩
      (by decide) rfl).1

/-- Claim C1 fails on the code: of two start requests against the same
stopped workspace, serialized one after the other, the second also
receives 200 — not 409 — and also invokes the Runtime. -/
theorem C1_counterexample :
    (startWorkspaceHandler [⟨5, some "u1", "ws5", "https://git/x", none, "stopped"⟩]
        "u1" 5 .ok).httpStatus = 200 ∧
    (startWorkspaceHandler
        (startWorkspaceHandler [⟨5, some "u1", "ws5", "https://git/x", none, "stopped"⟩]
          "u1" 5 .ok).db "u1" 5 .ok).httpStatus = 200 ∧
    (startWorkspaceHandler
        (startWorkspaceHandler [⟨5, some "u1", "ws5", "https://git/x", none, "stopped"⟩]
          "u1" 5 .ok).db "u1" 5 .ok).httpStatus ≠ 409 ∧
    (startWorkspaceHandler
        (startWorkspaceHandler [⟨5, some "u1", "ws5", "https://git/x", none, "stopped"⟩]
          "u1" 5 .ok).db "u1" 5 .ok).runtimeCalled = true := by
  decide

/-- Claim C2, amended: when the Runtime call of a start or stop throws,
the caller receives 500 and the workspace record is left entirely
unchanged — prior status and containerId intact; the failure is surfaced,
but the status is not set to `error`. -/
theorem C2_amended (db : DB) (u : String) (id : Nat) (w : Workspace)
    (hg : getWorkspace db id = some w) (hw : w.userId = some u) :
    startWorkspaceHandler db u id .fail = ⟨db, 500, true⟩ ∧
    stopWorkspaceHandler db u id .fail = ⟨db, 500, true⟩ := by
  constructor
  · simp only [startWorkspaceHandler, hg, if_pos hw]
  · simp only [stopWorkspaceHandler, hg, if_pos hw]

/-- Witness for C2 at a concrete stopped workspace with a container
handle. -/
theorem C2_amended_witness :
    startWorkspaceHandler [⟨1, some "u", "w", "r", some "c0", "stopped"⟩] "u" 1 .fail =
      ⟨[⟨1, some "u", "w", "r", some "c0", "stopped"⟩], 500, true⟩ :=
  (C2_amended [⟨1, some "u", "w", "r", some "c0", "stopped"⟩] "u" 1
    ⟨1, some "u", "w", "r", some "c0", "stopped"⟩ (by decide) rfl).1

/-- Claim C2 fails on the code: after a failed Runtime call during start,
the workspace status remains `stopped` — it is not set to `error`. -/
theorem C2_counterexample :
    (startWorkspaceHandler [⟨1, some "u", "w", "r", some "c0", "stopped"⟩]
        "u" 1 .fail).httpStatus = 500 ∧
    ((getWorkspace (startWorkspaceHandler [⟨1, some "u", "w", "r", some "c0", "stopped"⟩]
        "u" 1 .fail).db 1).map Workspace.status = some "stopped") ∧
    ((getWorkspace (startWorkspaceHandler [⟨1, some "u", "w", "r", some "c0", "stopped"⟩]
        "u" 1 .fail).db 1).map Workspace.status ≠ some "error") := by
  decide

/-- Claim C3, amended: start/stop requests never modify any column but
status (in particular stop does not clear containerId), and they only ever
write the statuses `running` and `stopped`; hence a record created with a
non-null containerId keeps it through any sequence of start/stop while its
status ranges over stable states, and containerId being non-null does not
imply a transitional/running status. -/
theorem C3_amended (db : DB) (ops : List (String × Nat × LifecycleOp)) :
    (runLifecycle db ops).map rowKey = db.map rowKey ∧
    ((∀ w ∈ db, w.status = "running" ∨ w.status = "stopped") →
      ∀ w' ∈ runLifecycle db ops, w'.status = "running" ∨ w'.status = "stopped") :=
  ⟨runLifecycle_rowKey ops db, runLifecycle_status ops db⟩

/-- Witness for C3 over a concrete stop-then-failed-start history. -/
theorem C3_amended_witness :
    (runLifecycle [⟨1, some "u", "n", "r", some "c", "running"⟩]
        [("u", 1, .stop .ok), ("u", 1, .start .fail)]).map rowKey =
      ([⟨1, some "u", "n", "r", some "c", "running"⟩] : DB).map rowKey ∧
    ∀ w' ∈ runLifecycle [⟨1, some "u", "n", "r", some "c", "running"⟩]
        [("u", 1, .stop .ok), ("u", 1, .start .fail)],
      w'.status = "running" ∨ w'.status = "stopped" :=
  ⟨(C3_amended _ _).1, (C3_amended _ _).2 (by decide)⟩

/-- Claim C3 fails on the code: a freshly created workspace that is then
stopped ends with status `stopped` while still holding its non-null
containerId, violating containerId non-null implies status in
starting/running/stopping. -/
theorem C3_counterexample :
    ((stopWorkspaceHandler
        (createWorkspaceHandler [] "u1" "proj-a" "https://git/x" (.ok "c1")).db
        "u1" 1 .ok).db).map Workspace.containerId = [some "c1"] ∧
    ((stopWorkspaceHandler
        (createWorkspaceHandler [] "u1" "proj-a" "https://git/x" (.ok "c1")).db
        "u1" 1 .ok).db).map Workspace.status = ["stopped"] ∧
    ("stopped" : String) ∉ (["starting", "running", "stopping"] : List String) := by
  decide

/-- Claim C4, amended: an OAuth callback whose query state differs from
the stored nonce is rejected with 403 and never proceeds to provider
authentication, in both the shared module and the workspaces server; the
nonce, however, is deleted only when verification succeeds — on a mismatch
it remains in the session. -/
theorem C4_amended (q : Option String) (s : Session) (n : String)
    (hn : s.oauthState = some n) (hq : q ≠ some n) :
    handleCallbackVerify q (some s) = .reject403 (some s) ∧
    serverCallbackVerify q s = .reject403 (some s) ∧
    handleCallbackVerify (some n) (some s) =
      .proceedToAuth { s with oauthState := none } := by
  refine ⟨?_, ?_, ?_⟩
  · simp only [handleCallbackVerify]
    rw [if_neg (by rw [hn]; simp), if_neg (by rw [hn]; exact hq)]
  · simp only [serverCallbackVerify]
    rw [if_neg (by rw [hn]; exact hq)]
  · simp only [handleCallbackVerify]
    rw [if_neg (by rw [hn]; simp), if_pos (by rw [hn])]

/-- Witness for C4 with an attacker-supplied state value. -/
theorem C4_amended_witness :
    handleCallbackVerify (some "attacker-value")
        (some ⟨some "legit-value", none⟩) =
      .reject403 (some ⟨some "legit-value", none⟩) ∧
    serverCallbackVerify (some "attacker-value") ⟨some "legit-value", none⟩ =
      .reject403 (some ⟨some "legit-value", none⟩) ∧
    handleCallbackVerify (some "legit-value") (some ⟨some "legit-value", none⟩) =
      .proceedToAuth ⟨none, none⟩ :=
  C4_amended (some "attacker-value") ⟨some "legit-value", none⟩ "legit-value"
    rfl (by decide)

/-- Claim C4 fails on the code in its single-use part: on a state
mismatch the 403 rejection leaves the stored nonce in the session —
`delete req.session.oauthState` runs only after the mismatch check has
passed. -/
theorem C4_counterexample :
    handleCallbackVerify (some "attacker-value")
        (some ⟨some "legit-value", none⟩) =
      .reject403 (some { oauthState := some "legit-value", returnTo := none }) ∧
    (some "legit-value" : Option String) ≠ none := by
  decide

/-- Claim C5, amended: creating a workspace whose name already exists
fails with a 500 storage-layer error and never overwrites the existing
record; otherwise the new record is appended with status `running` and the
non-null containerId of the container provisioned during creation. -/
theorem C5_amended (db : DB) (u name repoUrl cid : String)
    (hv : validName name = true) (hr : repoUrl ≠ "") :
    (db.any (fun w => w.name == name) = true →
      createWorkspaceHandler db u name repoUrl (.ok cid) = ⟨db, 500, true⟩) ∧
    (db.any (fun w => w.name == name) = false →
      createWorkspaceHandler db u name repoUrl (.ok cid) =
        ⟨db ++ [⟨nextId db, some u, name, repoUrl, some cid, "running"⟩], 200, true⟩) := by
  have hne : name ≠ "" := by
    have h := (Bool.and_eq_true _ _).mp hv
    exact of_decide_eq_true h.1
  constructor
  · intro hdup
    simp [createWorkspaceHandler, createWorkspace, hne, hr, hv, hdup]
  · intro hdup
    simp [createWorkspaceHandler, createWorkspace, hne, hr, hv, hdup]

/-- Witness for C5: a duplicate create fails leaving the table unchanged,
and a fresh create appends a running record with its container handle. -/
theorem C5_amended_witness :
    createWorkspaceHandler [⟨1, some "u1", "proj-a", "https://git/x", some "c1", "running"⟩]
        "u2" "proj-a" "https://git/y" (.ok "c2") =
      ⟨[⟨1, some "u1", "proj-a", "https://git/x", some "c1", "running"⟩], 500, true⟩ ∧
    createWorkspaceHandler [] "u1" "proj-a" "https://git/x" (.ok "c1") =
      ⟨[⟨1, some "u1", "proj-a", "https://git/x", some "c1", "running"⟩], 200, true⟩ :=
  ⟨(C5_amended [⟨1, some "u1", "proj-a", "https://git/x", some "c1", "running"⟩]
      "u2" "proj-a" "https://git/y" "c2" (by decide) (by decide)).1 (by decide),
   (C5_amended [] "u1" "proj-a" "https://git/x" "c1" (by decide) (by decide)).2 (by decide)⟩

/-- Claim C5 fails on the code: a successful create returns a record whose
status is `running` — not `stopped` — and whose containerId is non-null. -/
theorem C5_counterexample :
    (createWorkspaceHandler [] "u1" "proj-a" "https://git/x" (.ok "c1")).db =
      [⟨1, some "u1", "proj-a", "https://git/x", some "c1", "running"⟩] ∧
    ("running" : String) ≠ "stopped" ∧
    (some "c1" : Option String) ≠ none := by
  decide

/-- Claim C6: `acquireWorkspace` succeeds exactly when the row exists with
a null owner and the expected status, on success it sets the owner to the
caller, and of any number of serialized acquire calls against the same
released stopped workspace exactly one succeeds while the rest change
nothing. -/
theorem C6_acquire (db : DB) (id : Nat) (u es : String) :
    ((acquireWorkspace db id u es).2 ≠ 0 ↔
      ∃ w ∈ db, w.id = id ∧ w.userId = none ∧ w.status = es) ∧
    (∀ w ∈ db, w.id = id → w.userId = none → w.status = es →
      { w with userId := some u } ∈ (acquireWorkspace db id u es).1) ∧
    (∀ w0 ∈ db, w0.id = id → w0.userId = none → w0.status = "stopped" →
      (db.map Workspace.id).Nodup →
      ∀ rest : List String,
        (acquireRace db id (u :: rest)).2 = 1 ∧
        (acquireRace db id (u :: rest)).1 = (acquireWorkspace db id u "stopped").1) := by
  refine ⟨?_, ?_, ?_⟩
  · have h := updateWhere_snd_ne_zero db
      (fun w => w.id == id && w.userId.isNone && w.status == es)
      (fun w => { w with userId := some u })
    simpa [Bool.and_eq_true, Option.isNone_iff_eq_none, and_assoc] using h
  · intro w hw hid hrel hst
    apply (mem_updateWhere_fst _ _ _).mpr
    refine ⟨w, hw, ?_⟩
    rw [if_pos (by simp [hid, hrel, hst])]
  · intro w0 hw0 hid hrel hst hnd rest
    obtain ⟨hs, hb⟩ := acquireWorkspace_first (u := u) hw0 hid hrel hst hnd
    have hrace : acquireRace db id (u :: rest) =
        ((acquireWorkspace db id u "stopped").1,
         0 + (acquireWorkspace db id u "stopped").2) := by
      simp only [acquireRace, List.foldl_cons]
      exact acquireRace_of_owned rest _ _ hb
    rw [hrace, hs]
    exact ⟨rfl, rfl⟩

/-- Witness for C6: three racing acquires on a released stopped workspace
yield exactly one success and the first caller's table. -/
theorem C6_acquire_witness :
    (acquireRace [⟨7, none, "n", "r", none, "stopped"⟩] 7 ["a", "b", "c"]).2 = 1 ∧
    (acquireRace [⟨7, none, "n", "r", none, "stopped"⟩] 7 ["a", "b", "c"]).1 =
      (acquireWorkspace [⟨7, none, "n", "r", none, "stopped"⟩] 7 "a" "stopped").1 :=
  (C6_acquire [⟨7, none, "n", "r", none, "stopped"⟩] 7 "a" "stopped").2.2
    ⟨7, none, "n", "r", none, "stopped"⟩ (by decide) rfl rfl rfl (by decide) ["b", "c"]

/-- Claim C7: `releaseWorkspace` succeeds exactly when the row exists
owned by the expected user with the expected status, on success it nulls
the owner, and in every other case it reports zero affected rows and
leaves the table unchanged. -/
theorem C7_release (db : DB) (id : Nat) (eo es : String) :
    ((releaseWorkspace db id eo es).2 ≠ 0 ↔
      ∃ w ∈ db, w.id = id ∧ w.userId = some eo ∧ w.status = es) ∧
    (∀ w ∈ db, w.id = id → w.userId = some eo → w.status = es →
      { w with userId := none } ∈ (releaseWorkspace db id eo es).1) ∧
    ((¬ ∃ w ∈ db, w.id = id ∧ w.userId = some eo ∧ w.status = es) →
      releaseWorkspace db id eo es = (db, 0)) := by
  refine ⟨?_, ?_, ?_⟩
  · have h := updateWhere_snd_ne_zero db
      (fun w => w.id == id && w.userId == some eo && w.status == es)
      (fun w => { w with userId := none })
    simpa [Bool.and_eq_true, and_assoc] using h
  · intro w hw hid ho hst
    apply (mem_updateWhere_fst _ _ _).mpr
    refine ⟨w, hw, ?_⟩
    rw [if_pos (by simp [hid, ho, hst])]
  · intro hno
    have hall : ∀ w ∈ db,
        (w.id == id && w.userId == some eo && w.status == es) = false := by
      intro w hw
      by_contra hne
      exact hno ⟨w, hw, by simpa [Bool.and_eq_true, and_assoc] using
        Bool.of_not_eq_false hne⟩
    exact Prod.ext (updateWhere_fst_of_none db _ _ hall) (updateWhere_snd_zero db _ _ hall)

/-- Witness for C7: release by the owner of a stopped workspace nulls the
owner; release of a running workspace changes nothing. -/
theorem C7_release_witness :
    ({ id := 7, userId := none, name := "n", repoUrl := "r", containerId := none,
       status := "stopped" } : Workspace) ∈
      (releaseWorkspace [⟨7, some "a", "n", "r", none, "stopped"⟩] 7 "a" "stopped").1 ∧
    releaseWorkspace [⟨7, some "a", "n", "r", none, "running"⟩] 7 "a" "stopped" =
      ([⟨7, some "a", "n", "r", none, "running"⟩], 0) :=
  ⟨(C7_release [⟨7, some "a", "n", "r", none, "stopped"⟩] 7 "a" "stopped").2.1
      ⟨7, some "a", "n", "r", none, "stopped"⟩ (by decide) rfl rfl rfl,
   (C7_release [⟨7, some "a", "n", "r", none, "running"⟩] 7 "a" "stopped").2.2
      (by decide)⟩

/-- Claim C8, amended: the shared OAuth module's initiate handler persists
the session — holding the fresh nonce and any returnTo target — strictly
before the redirect, and a save failure yields 500 with no redirect; the
workspaces server's own `/auth/github` route, by contrast, stores the
nonce and redirects with no explicit persist step and no 500 path. -/
theorem C8_amended (sess : Session) (rq : Option String) (state : String) :
    ((initiateAuth sess rq state false).2.all (fun e => !e.isRedirect) = true ∧
      AuthEvent.respond500 ∈ (initiateAuth sess rq state false).2) ∧
    (∃ s2 : Session, s2.oauthState = some state ∧
      (rq = none → s2.returnTo = sess.returnTo) ∧
      (∀ r, rq = some r → s2.returnTo = some r) ∧
      (initiateAuth sess rq state true).2 =
        [AuthEvent.setNonce state, AuthEvent.persistSession s2,
         AuthEvent.redirectToProvider state]) ∧
    (∀ s : Session, (serverInitiateAuth s state).2 =
      [AuthEvent.setNonce state, AuthEvent.redirectToProvider state]) := by
  refine ⟨⟨?_, ?_⟩, ?_, fun s => rfl⟩
  · cases rq <;> rfl
  · cases rq <;> simp [initiateAuth]
  · cases rq with
    | none =>
        exact ⟨{ sess with oauthState := some state }, rfl, fun _ => rfl,
          fun r hr => Option.noConfusion hr, rfl⟩
    | some r0 =>
        exact ⟨{ oauthState := some state, returnTo := some r0 }, rfl,
          fun h => Option.noConfusion h, fun r hr => hr, rfl⟩

/-- Witness for C8 at a concrete session with a returnTo target. -/
theorem C8_amended_witness :
    AuthEvent.respond500 ∈ (initiateAuth ⟨none, none⟩ (some "/dash") "s" false).2 ∧
    ∃ s2 : Session, s2.oauthState = some "s" ∧
      ((some "/dash" : Option String) = none →
        s2.returnTo = (⟨none, none⟩ : Session).returnTo) ∧
      (∀ r, (some "/dash" : Option String) = some r → s2.returnTo = some r) ∧
      (initiateAuth ⟨none, none⟩ (some "/dash") "s" true).2 =
        [AuthEvent.setNonce "s", AuthEvent.persistSession s2,
         AuthEvent.redirectToProvider "s"] :=
  ⟨(C8_amended ⟨none, none⟩ (some "/dash") "s").1.2,
   (C8_amended ⟨none, none⟩ (some "/dash") "s").2.1⟩

/-- Claim C8 fails on the code for the workspaces server's own
`/auth/github` route: its handler emits no session-persist step before
the redirect and has no 500 branch — even a failing session store cannot
surface a 500 instead of the redirect. -/
theorem C8_counterexample :
    (serverInitiateAuth ⟨none, none⟩ "nonce").2 =
      [AuthEvent.setNonce "nonce", AuthEvent.redirectToProvider "nonce"] ∧
    ((serverInitiateAuth ⟨none, none⟩ "nonce").2).all (fun e => !e.isPersist) = true ∧
    ((serverInitiateAuth ⟨none, none⟩ "nonce").2).all (fun e => !e.isServerError) = true ∧
    ((serverInitiateAuth ⟨none, none⟩ "nonce").2).any (fun e => e.isRedirect) = true := by
  decide

/-- Claim C9, amended: `GET /api/workspaces/:id` answers 200 exactly when
the workspace exists and is owned by the requesting user, and 404
otherwise — a released workspace (null owner) yields 404 from this
endpoint even though the list endpoint does return it. -/
theorem C9_amended (db : DB) (u : String) (id : Nat) :
    (getWorkspaceHandler db u id = 200 ↔
      ∃ w, getWorkspace db id = some w ∧ w.userId = some u) ∧
    (getWorkspaceHandler db u id = 200 ∨ getWorkspaceHandler db u id = 404) ∧
    (∀ w ∈ db, w.userId = none → w ∈ getUserWorkspaces db u) := by
  refine ⟨?_, ?_, ?_⟩
  · rcases hg : getWorkspace db id with _ | w
    · simp [getWorkspaceHandler, hg]
    · simp only [getWorkspaceHandler, hg]
      by_cases h : w.userId = some u
      · rw [if_pos h]
        simp [h]
      · rw [if_neg h]
        constructor
        · intro h'; exact absurd h' (by decide)
        · rintro ⟨w', hw', hu'⟩
          rw [Option.some_inj.mp hw'] at h
          exact absurd hu' h
  · rcases hg : getWorkspace db id with _ | w
    · right; simp [getWorkspaceHandler, hg]
    · simp only [getWorkspaceHandler, hg]
      by_cases h : w.userId = some u
      · left; rw [if_pos h]
      · right; rw [if_neg h]
  · intro w hw hrel
    refine List.mem_filter.mpr ⟨hw, ?_⟩
    simp [hrel]

/-- Witness for C9: an owned workspace is fetched with 200, and a released
one still appears in the list query. -/
theorem C9_amended_witness :
    getWorkspaceHandler [⟨7, some "u1", "n", "r", none, "stopped"⟩] "u1" 7 = 200 ∧
    ({ id := 8, userId := none, name := "m", repoUrl := "r", containerId := none,
       status := "stopped" } : Workspace) ∈
      getUserWorkspaces [⟨8, none, "m", "r", none, "stopped"⟩] "u1" :=
  ⟨(C9_amended [⟨7, some "u1", "n", "r", none, "stopped"⟩] "u1" 7).1.mpr
      ⟨⟨7, some "u1", "n", "r", none, "stopped"⟩, rfl, rfl⟩,
   (C9_amended [⟨8, none, "m", "r", none, "stopped"⟩] "u1" 8).2.2
      ⟨8, none, "m", "r", none, "stopped"⟩ (by decide) rfl⟩

/-- Claim C9 fails on the code: a released workspace — visible in the
user's list query — is answered with 404 by the detail endpoint, where the
claim promises 200. -/
theorem C9_counterexample :
    getWorkspaceHandler [⟨7, none, "n", "r", none, "stopped"⟩] "u1" 7 = 404 ∧
    ({ id := 7, userId := none, name := "n", repoUrl := "r", containerId := none,
       status := "stopped" } : Workspace) ∈
      getUserWorkspaces [⟨7, none, "n", "r", none, "stopped"⟩] "u1" := by
  decide

/-- Claim C10: in the workspaces server's callback route, a request with
no state query parameter against a session with no stored nonce passes the
strict-inequality check and proceeds to provider authentication; the route
rejects exactly on mismatch, with no separate session-lost check — unlike
the shared module, which rejects that same request. -/
theorem C10_callback :
    serverCallbackVerify none ⟨none, none⟩ = .proceedToAuth ⟨none, none⟩ ∧
    (∀ (q : Option String) (s : Session),
      serverCallbackVerify q s = .reject403 (some s) ↔ q ≠ s.oauthState) ∧
    handleCallbackVerify none (some ⟨none, none⟩) =
      .reject403 (some ⟨none, none⟩) := by
  refine ⟨rfl, ?_, rfl⟩
  intro q s
  constructor
  · intro h hqs
    simp only [serverCallbackVerify, if_pos hqs] at h
    cases h
  · intro h
    simp only [serverCallbackVerify, if_neg h]

/-- Witness for C10 applying the rejection characterization at a concrete
mismatching pair. -/
theorem C10_callback_witness :
    serverCallbackVerify (some "x") ⟨some "y", none⟩ =
      .reject403 (some ⟨some "y", none⟩) :=
  (C10_callback.2.1 (some "x") ⟨some "y", none⟩).mpr (by decide)

end WsApp
